import Mathlib

/-! One-time forced admin change (`x/gov`).

A shallow embedding of

* `x/gov/types/msg_force_change_admin.go`  (`MsgForceChangeAdmin`, `ValidateBasic`),
* `x/gov/keeper/force_change_admin.go`     (`Keeper.ForceChangeAdmin`),
* `x/gov/keeper/handler_force_change_admin.go` (`HandleMsgForceChangeAdmin`),

followed by theorems about the guard / executor state machine.

Modelling conventions.

* The bytes of a Go `string` and of a `[]byte` are both rendered as a Lean
  `String`, and `append` on byte slices is `++`.  A `[]byte` that may be the nil
  slice (a value handed to `store.Set`, an `sdk.AccAddress`) is an
  `Option String` with `none` for nil; the conversion `[]byte(s)` of a string
  is `some s`.
* `store.Set` is the SDK store's: it panics on an empty key and on a nil value,
  before writing.  A call that can panic ends in `panicked`, and the context it
  returns is the one at the moment of the panic.
* `sdk.Context` is passed explicitly: it carries the module store
  (`ctx.KVStore(k.storeKey)`), the block height and the events collected by the
  event manager.  A Go function that mutates the context returns the new one.
* `int64` block heights are `Int`; no arithmetic is done on them.
* `Keeper.IsGovernanceAuthority` and `Keeper.ContractExists` are called by the
  handler but not defined in these files; they are fields of `Keeper`.
* `sdk.AccAddressFromBech32` and `AccAddress.String` belong to the SDK; they are
  the fields of `Bech32`.
* The handler passes `msg.ContractAddr` and `msg.NewAdmin` (strings) where
  `Keeper.ForceChangeAdmin` declares `sdk.AccAddress`; the embedding reads this
  as the byte conversion `sdk.AccAddress(s)`, a non-nil slice whose `.Bytes()`
  are the bytes of `s`.
* Lines 29 and 33 of the handler return the wrapped error alone; the embedding
  reads them as `return nil, err`, like the two returns above them.
* The logger call has no effect on the context and is left out.
-/

namespace ForceChangeAdmin

/-! ## SDK types -/

/-- The module store: `Get` of a key is `none` when the key is absent. -/
abbrev KVStore := String → Option String

/-- Method `store.Has(key)`. -/
def KVStore.Has (s : KVStore) (key : String) : Bool := (s key).isSome

/-- Method `store.Get(key)`. -/
def KVStore.Get (s : KVStore) (key : String) : Option String := s key

/-- The write that `store.Set` performs once its arguments are accepted. -/
def KVStore.put (s : KVStore) (key value : String) : KVStore :=
  fun k => if k = key then some value else s k

/-- Method `store.Set(key, value)` of the SDK store; the value is a `[]byte`, `none`
being the nil slice.  The result `none` stands for the panic of `AssertValidKey`
(empty key) or of `AssertValidValue` (nil value), raised before anything is written. -/
def KVStore.Set (s : KVStore) (key : String) (value : Option String) : Option KVStore :=
  if key = "" then none
  else
    match value with
    | none => none
    | some v => some (s.put key v)

/-- Type `sdk.AccAddress`, a `[]byte`: `none` is the nil slice, `some s` a non-nil
slice with the bytes `s`. -/
abbrev AccAddress := Option String

/-- Method `AccAddress.Bytes` read for its contents: the nil slice has none. -/
def AccAddress.contents (a : AccAddress) : String := a.getD ""

/-- Conversion `sdk.AccAddress(s)` of a string: a non-nil slice. -/
def AccAddress.ofString (s : String) : AccAddress := some s

/-- Type `sdk.Attribute`. -/
structure Attribute where
  Key : String
  Value : String
  deriving DecidableEq

/-- Constructor `sdk.NewAttribute`. -/
def NewAttribute (k v : String) : Attribute := ⟨k, v⟩

/-- Type `sdk.Event`; the field `Ty` is the Go field `Type`. -/
structure Event where
  Ty : String
  Attributes : List Attribute
  deriving DecidableEq

/-- Constructor `sdk.NewEvent`. -/
def NewEvent (ty : String) (attrs : List Attribute) : Event := ⟨ty, attrs⟩

/-- Type `sdk.Context`, reduced to what the handler and the keeper touch. -/
structure Context where
  store : KVStore
  BlockHeight : Int
  events : List Event

/-- Call `ctx.EventManager().EmitEvent(e)`: events are appended in emission order. -/
def Context.EmitEvent (ctx : Context) (e : Event) : Context :=
  { ctx with events := ctx.events ++ [e] }

/-- Call `ctx.KVStore(k.storeKey).Set(key, value)` written back into the context;
`none` when `store.Set` panics. -/
def Context.storeSet (ctx : Context) (key : String) (value : Option String) :
    Option Context :=
  match ctx.store.Set key value with
  | none => none
  | some st => some { ctx with store := st }

/-- The registered root errors of `sdkerrors` used by this module. -/
inductive SdkErr where
  | ErrUnauthorized
  | ErrInvalidAddress
  | ErrUnknownRequest
  deriving DecidableEq

/-- The description with which `sdkerrors` registers each root error. -/
def SdkErr.Error : SdkErr → String
  | .ErrUnauthorized => "unauthorized"
  | .ErrInvalidAddress => "invalid address"
  | .ErrUnknownRequest => "unknown request"

/-- The value of `sdkerrors.Wrap(parent, msg)`. -/
structure WrappedError where
  parent : SdkErr
  msg : String
  deriving DecidableEq

/-- Function `sdkerrors.Wrap`. -/
def Wrap (parent : SdkErr) (msg : String) : WrappedError := ⟨parent, msg⟩

/-- Method `err.Error()` of a wrapped error: the description, a colon, the parent. -/
def WrappedError.Error (e : WrappedError) : String :=
  e.msg ++ ": " ++ e.parent.Error

/-- Type `sdk.Result`, reduced to its `Events` field. -/
structure Result where
  Events : List Event
  deriving DecidableEq

/-- How a call of a Go function that returns an `error` ends. -/
inductive ErrorReturn where
  | nil
  | err (e : WrappedError)
  | panicked
  deriving DecidableEq

/-- How a call of a Go function that returns `(*sdk.Result, error)` ends: `ok res`
is `(res, nil)` and `error e` is `(nil, e)`. -/
inductive Outcome where
  | ok (res : Result)
  | error (e : WrappedError)
  | panicked
  deriving DecidableEq

/-- Call `fmt.Sprintf("%d", n)` for an `int64`. -/
def sprintfD (n : Int) : String := toString n

/-- The SDK address codec. -/
structure Bech32 where
  /-- Function `sdk.AccAddressFromBech32`: `none` stands for a non-nil error. -/
  AccAddressFromBech32 : String → Option String
  /-- Method `AccAddress.String`. -/
  AccAddressString : String → String

/-! ## `x/gov/types/msg_force_change_admin.go` -/

/-- Type `MsgForceChangeAdmin`. -/
structure MsgForceChangeAdmin where
  Authority : String
  ContractAddr : String
  NewAdmin : String
  deriving DecidableEq

/-- Constructor `NewMsgForceChangeAdmin`. -/
def NewMsgForceChangeAdmin (authority contractAddr newAdmin : String) : MsgForceChangeAdmin :=
  { Authority := authority, ContractAddr := contractAddr, NewAdmin := newAdmin }

/-- Method `MsgForceChangeAdmin.ValidateBasic`: `none` is the nil error. -/
def MsgForceChangeAdmin.ValidateBasic (b : Bech32) (msg : MsgForceChangeAdmin) :
    Option WrappedError :=
  if (b.AccAddressFromBech32 msg.Authority).isNone then
    some (Wrap .ErrInvalidAddress "invalid authority address")
  else if (b.AccAddressFromBech32 msg.ContractAddr).isNone then
    some (Wrap .ErrInvalidAddress "invalid contract address")
  else if (b.AccAddressFromBech32 msg.NewAdmin).isNone then
    some (Wrap .ErrInvalidAddress "invalid new admin address")
  else none

/-- Method `MsgForceChangeAdmin.GetSigners`: `none` stands for the `panic(err)` of
line 48, `some` for the returned slice of signers. -/
def MsgForceChangeAdmin.GetSigners (b : Bech32) (msg : MsgForceChangeAdmin) :
    Option (List String) :=
  match b.AccAddressFromBech32 msg.Authority with
  | none => none
  | some addr => some [addr]

/-! ## `x/gov/keeper` -/

/-- The keeper: the two methods the handler calls that these files do not define. -/
structure Keeper where
  IsGovernanceAuthority : Context → String → Bool
  ContractExists : Context → String → Bool

/-- Variable `KeyForceChangeAdminUsed`. -/
def KeyForceChangeAdminUsed : String := "force_change_admin_used"

/-- The key under which `Keeper.ForceChangeAdmin` stores the admin of a contract. -/
def adminKey (contractAddr : String) : String := "wasm/admin/" ++ contractAddr

/-- Method `Keeper.ForceChangeAdmin`: the new context and how the call ends.  The
value handed to `store.Set` is `newAdmin.Bytes()`, nil for the nil address. -/
def Keeper.ForceChangeAdmin (_k : Keeper) (b : Bech32) (ctx : Context)
    (contractAddr newAdmin : AccAddress) : Context × ErrorReturn :=
  match ctx.storeSet (adminKey contractAddr.contents) newAdmin with
  | none => (ctx, .panicked)
  | some ctx1 =>
    let ctx2 := ctx1.EmitEvent
      (NewEvent "admin_changed"
        [NewAttribute "contract" (b.AccAddressString contractAddr.contents),
         NewAttribute "new_admin" (b.AccAddressString newAdmin.contents)])
    (ctx2, .nil)

/-- Function `HandleMsgForceChangeAdmin`: the context after the call and the returned pair
`(*sdk.Result, error)`, an error standing for `(nil, err)`; a panic of the keeper
or of `store.Set` ends the call. -/
def HandleMsgForceChangeAdmin (b : Bech32) (ctx : Context) (keeper : Keeper)
    (msg : MsgForceChangeAdmin) : Context × Outcome :=
  if ctx.store.Has KeyForceChangeAdminUsed then
    (ctx, .error (Wrap .ErrUnauthorized "ForceChangeAdmin can only be used once"))
  else if !keeper.IsGovernanceAuthority ctx msg.Authority then
    (ctx, .error (Wrap .ErrUnauthorized "Only governance can perform this action"))
  else if msg.NewAdmin = "" then
    (ctx, .error (Wrap .ErrInvalidAddress "new admin address cannot be empty"))
  else if !keeper.ContractExists ctx msg.ContractAddr then
    (ctx, .error (Wrap .ErrUnknownRequest "contract does not exist"))
  else
    match keeper.ForceChangeAdmin b ctx (AccAddress.ofString msg.ContractAddr)
        (AccAddress.ofString msg.NewAdmin) with
    | (ctx1, .panicked) => (ctx1, .panicked)
    | (ctx1, .err _) => (ctx1, .error (Wrap .ErrUnknownRequest "Failed to change admin"))
    | (ctx1, .nil) =>
      match ctx1.storeSet KeyForceChangeAdminUsed
          (some ("used_at_height_" ++ sprintfD ctx1.BlockHeight)) with
      | none => (ctx1, .panicked)
      | some ctx2 =>
        let ctx3 := ctx2.EmitEvent
          (NewEvent "force_admin_change"
            [NewAttribute "contract" msg.ContractAddr,
             NewAttribute "new_admin" msg.NewAdmin,
             NewAttribute "executed_at_height" (sprintfD ctx2.BlockHeight)])
        (ctx3, .ok { Events := ctx3.events })

/-! ## Denial reasons, emitted events, call sequences -/

/-- The replay denial returned at line 19 of the handler. -/
def AlreadyUsed : WrappedError :=
  Wrap .ErrUnauthorized "ForceChangeAdmin can only be used once"

/-- The authority denial returned at line 24 of the handler. -/
def Unauthorized : WrappedError :=
  Wrap .ErrUnauthorized "Only governance can perform this action"

/-- The new-admin denial returned at line 29 of the handler. -/
def InvalidNewAdmin : WrappedError :=
  Wrap .ErrInvalidAddress "new admin address cannot be empty"

/-- The resource denial returned at line 33 of the handler. -/
def UnknownResource : WrappedError :=
  Wrap .ErrUnknownRequest "contract does not exist"

/-- The events a call appended to the event manager: those of `after` beyond `before`. -/
def emitted (before after : Context) : List Event :=
  after.events.drop before.events.length

/-- Whether a call returned a pair `(*sdk.Result, error)` with a nil error. -/
def succeeded (r : Outcome) : Bool :=
  match r with
  | .ok _ => true
  | .error _ => false
  | .panicked => false

/-- A sequence of handler calls on one store: each call is a block height and a
request, and runs in the context the previous call left, at its own height.
The result is the final context and the returned pairs in call order. -/
def runCalls (b : Bech32) (keeper : Keeper) :
    Context → List (Int × MsgForceChangeAdmin) → Context × List Outcome
  | ctx, [] => (ctx, [])
  | ctx, (h, msg) :: rest =>
    let r := HandleMsgForceChangeAdmin b { ctx with BlockHeight := h } keeper msg
    let rs := runCalls b keeper r.1 rest
    (rs.1, r.2 :: rs.2)

/-- Go `strings.HasPrefix` on the characters of two strings. -/
def startsWith : List Char → List Char → Bool
  | _, [] => true
  | [], _ :: _ => false
  | c :: cs, p :: ps => c == p && startsWith cs ps

/-- Go `strings.Contains` on the characters of two strings. -/
def containsChars : List Char → List Char → Bool
  | [], sub => sub.isEmpty
  | c :: cs, sub => startsWith (c :: cs) sub || containsChars cs sub

/-- Go `strings.Contains(s, substr)`, as used by `require.Contains` in the test. -/
def Contains (s substr : String) : Bool := containsChars s.data substr.data

/-! ## The checks of the guard in the order of the specification -/

/-- The four checks of the guard in the order of section 4.1 of the specification
(replay, authority, new-admin, resource-existence): whether the check passes, and
the denial it gives when it does not.  Each check is the test the handler makes;
the new-admin check is the emptiness test of line 28. -/
def specGuardChecks (ctx : Context) (keeper : Keeper) (msg : MsgForceChangeAdmin) :
    List (Bool × WrappedError) :=
  [(!ctx.store.Has KeyForceChangeAdminUsed, AlreadyUsed),
   (keeper.IsGovernanceAuthority ctx msg.Authority, Unauthorized),
   (msg.NewAdmin != "", InvalidNewAdmin),
   (keeper.ContractExists ctx msg.ContractAddr, UnknownResource)]

/-- The denial of the first check of a list that fails; `none` when all pass. -/
def specFirstFailure : List (Bool × WrappedError) → Option WrappedError
  | [] => none
  | (passes, denial) :: rest => if passes then specFirstFailure rest else some denial

/-! ## The scenario of `TestHandleMsgForceChangeAdmin` -/

/-- A keeper whose governance authority is the test's `authority` and whose
registry holds the test's `contractAddr`. -/
def testKeeper : Keeper :=
  { IsGovernanceAuthority := fun _ a => a == "terra1authorityaddress"
    ContractExists := fun _ c => c == "terra1contractaddress" }

/-- A codec that accepts exactly the strings starting with `terra1`. -/
def testBech32 : Bech32 :=
  { AccAddressFromBech32 := fun s => if startsWith s.data "terra1".data then some s else none
    AccAddressString := fun s => s }

/-- A context with an empty store and no events, at height 100. -/
def genesisCtx : Context := { store := fun _ => none, BlockHeight := 100, events := [] }

/-- The test's valid message. -/
def validMsg : MsgForceChangeAdmin :=
  NewMsgForceChangeAdmin "terra1authorityaddress" "terra1contractaddress" "terra1newadminaddress"

/-- The test's `unauthorizedMsg`. -/
def unauthorizedMsg : MsgForceChangeAdmin :=
  NewMsgForceChangeAdmin "terra1unauthorized" "terra1contractaddress" "terra1newadminaddress"

/-- The test's `invalidContractMsg`. -/
def invalidContractMsg : MsgForceChangeAdmin :=
  NewMsgForceChangeAdmin "terra1authorityaddress" "invalid_address" "terra1newadminaddress"

/-- The test's `invalidNewAdminMsg`. -/
def invalidNewAdminMsg : MsgForceChangeAdmin :=
  NewMsgForceChangeAdmin "terra1authorityaddress" "terra1contractaddress" "invalid_address"

/-- A message with a foreign authority and an empty new admin. -/
def unauthorizedEmptyMsg : MsgForceChangeAdmin :=
  NewMsgForceChangeAdmin "terra1unauthorized" "terra1contractaddress" ""

/-- A message of the authority with an empty new admin for an unregistered contract. -/
def emptyUnknownMsg : MsgForceChangeAdmin :=
  NewMsgForceChangeAdmin "terra1authorityaddress" "terra1othercontract" ""

/-- A message of the authority with a new admin for an unregistered contract. -/
def unknownContractMsg : MsgForceChangeAdmin :=
  NewMsgForceChangeAdmin "terra1authorityaddress" "terra1othercontract" "terra1newadminaddress"

/-- A message whose authority the codec rejects. -/
def malformedAuthorityMsg : MsgForceChangeAdmin :=
  NewMsgForceChangeAdmin "invalid_address" "terra1contractaddress" "terra1newadminaddress"

/-- The context left by step 1 of the test, the successful call. -/
def usedCtx : Context :=
  (HandleMsgForceChangeAdmin testBech32 genesisCtx testKeeper validMsg).1

/-- The context a successful call leaves: the admin record written by the keeper,
then the flag written by the handler, and the two events in emission order. -/
def successCtx (b : Bech32) (ctx : Context) (msg : MsgForceChangeAdmin) : Context :=
  { store := (ctx.store.put (adminKey msg.ContractAddr) msg.NewAdmin).put
      KeyForceChangeAdminUsed ("used_at_height_" ++ sprintfD ctx.BlockHeight)
    BlockHeight := ctx.BlockHeight
    events := ctx.events ++
      [NewEvent "admin_changed"
         [NewAttribute "contract" (b.AccAddressString msg.ContractAddr),
          NewAttribute "new_admin" (b.AccAddressString msg.NewAdmin)],
       NewEvent "force_admin_change"
         [NewAttribute "contract" msg.ContractAddr,
          NewAttribute "new_admin" msg.NewAdmin,
          NewAttribute "executed_at_height" (sprintfD ctx.BlockHeight)]] }

/-! ## Lemmas on the store and on the branches of the handler -/

theorem adminKey_ne_flag (contractAddr : String) :
    adminKey contractAddr ≠ KeyForceChangeAdminUsed := by
  intro h
  have hd := congrArg String.data h
  simp [adminKey, KeyForceChangeAdminUsed, String.data_append] at hd

theorem flag_ne_adminKey (contractAddr : String) :
    KeyForceChangeAdminUsed ≠ adminKey contractAddr :=
  fun h => adminKey_ne_flag contractAddr h.symm

theorem adminKey_ne_empty (contractAddr : String) : adminKey contractAddr ≠ "" := by
  intro h
  have hd := congrArg String.data h
  simp [adminKey, String.data_append] at hd

theorem flag_ne_empty : KeyForceChangeAdminUsed ≠ "" := by decide

/-- With a non-nil new admin the keeper writes it under the admin key, emits its
event and returns nil. -/
theorem forceChangeAdmin_eq (k : Keeper) (b : Bech32) (ctx : Context) (c : AccAddress)
    (n : String) :
    k.ForceChangeAdmin b ctx c (some n) =
      ({ store := ctx.store.put (adminKey c.contents) n
         BlockHeight := ctx.BlockHeight
         events := ctx.events ++
           [NewEvent "admin_changed"
              [NewAttribute "contract" (b.AccAddressString c.contents),
               NewAttribute "new_admin" (b.AccAddressString n)]] }, .nil) := by
  simp [Keeper.ForceChangeAdmin, Context.storeSet, KVStore.Set, adminKey_ne_empty,
    Context.EmitEvent, AccAddress.contents]

/-- With the nil new admin `store.Set` panics and the keeper leaves the context as
it was. -/
theorem forceChangeAdmin_nil (k : Keeper) (b : Bech32) (ctx : Context) (c : AccAddress) :
    k.ForceChangeAdmin b ctx c none = (ctx, .panicked) := by
  simp [Keeper.ForceChangeAdmin, Context.storeSet, KVStore.Set]

theorem handle_used (b : Bech32) (ctx : Context) (keeper : Keeper) (msg : MsgForceChangeAdmin)
    (h : ctx.store.Has KeyForceChangeAdminUsed = true) :
    HandleMsgForceChangeAdmin b ctx keeper msg = (ctx, .error AlreadyUsed) := by
  simp [HandleMsgForceChangeAdmin, h, AlreadyUsed]

theorem handle_unauthorized (b : Bech32) (ctx : Context) (keeper : Keeper)
    (msg : MsgForceChangeAdmin)
    (h1 : ctx.store.Has KeyForceChangeAdminUsed = false)
    (h2 : keeper.IsGovernanceAuthority ctx msg.Authority = false) :
    HandleMsgForceChangeAdmin b ctx keeper msg = (ctx, .error Unauthorized) := by
  simp [HandleMsgForceChangeAdmin, h1, h2, Unauthorized]

theorem handle_empty (b : Bech32) (ctx : Context) (keeper : Keeper)
    (msg : MsgForceChangeAdmin)
    (h1 : ctx.store.Has KeyForceChangeAdminUsed = false)
    (h2 : keeper.IsGovernanceAuthority ctx msg.Authority = true)
    (h3 : msg.NewAdmin = "") :
    HandleMsgForceChangeAdmin b ctx keeper msg = (ctx, .error InvalidNewAdmin) := by
  simp [HandleMsgForceChangeAdmin, h1, h2, h3, InvalidNewAdmin]

theorem handle_unknown (b : Bech32) (ctx : Context) (keeper : Keeper)
    (msg : MsgForceChangeAdmin)
    (h1 : ctx.store.Has KeyForceChangeAdminUsed = false)
    (h2 : keeper.IsGovernanceAuthority ctx msg.Authority = true)
    (h3 : msg.NewAdmin ≠ "")
    (h4 : keeper.ContractExists ctx msg.ContractAddr = false) :
    HandleMsgForceChangeAdmin b ctx keeper msg = (ctx, .error UnknownResource) := by
  simp [HandleMsgForceChangeAdmin, h1, h2, h3, h4, UnknownResource]

theorem handle_success (b : Bech32) (ctx : Context) (keeper : Keeper)
    (msg : MsgForceChangeAdmin)
    (h1 : ctx.store.Has KeyForceChangeAdminUsed = false)
    (h2 : keeper.IsGovernanceAuthority ctx msg.Authority = true)
    (h3 : msg.NewAdmin ≠ "")
    (h4 : keeper.ContractExists ctx msg.ContractAddr = true) :
    HandleMsgForceChangeAdmin b ctx keeper msg =
      (successCtx b ctx msg, .ok { Events := (successCtx b ctx msg).events }) := by
  simp [HandleMsgForceChangeAdmin, h1, h2, h3, h4, AccAddress.ofString, forceChangeAdmin_eq,
    successCtx, Context.storeSet, KVStore.Set, flag_ne_empty, Context.EmitEvent,
    AccAddress.contents]

/-- The five branches of the handler, each with the guard values that select it. -/
theorem handle_cases (b : Bech32) (ctx : Context) (keeper : Keeper)
    (msg : MsgForceChangeAdmin) :
    (ctx.store.Has KeyForceChangeAdminUsed = true ∧
      HandleMsgForceChangeAdmin b ctx keeper msg = (ctx, .error AlreadyUsed)) ∨
    (ctx.store.Has KeyForceChangeAdminUsed = false ∧
      keeper.IsGovernanceAuthority ctx msg.Authority = false ∧
      HandleMsgForceChangeAdmin b ctx keeper msg = (ctx, .error Unauthorized)) ∨
    (ctx.store.Has KeyForceChangeAdminUsed = false ∧
      keeper.IsGovernanceAuthority ctx msg.Authority = true ∧ msg.NewAdmin = "" ∧
      HandleMsgForceChangeAdmin b ctx keeper msg = (ctx, .error InvalidNewAdmin)) ∨
    (ctx.store.Has KeyForceChangeAdminUsed = false ∧
      keeper.IsGovernanceAuthority ctx msg.Authority = true ∧ msg.NewAdmin ≠ "" ∧
      keeper.ContractExists ctx msg.ContractAddr = false ∧
      HandleMsgForceChangeAdmin b ctx keeper msg = (ctx, .error UnknownResource)) ∨
    (ctx.store.Has KeyForceChangeAdminUsed = false ∧
      keeper.IsGovernanceAuthority ctx msg.Authority = true ∧ msg.NewAdmin ≠ "" ∧
      keeper.ContractExists ctx msg.ContractAddr = true ∧
      HandleMsgForceChangeAdmin b ctx keeper msg =
        (successCtx b ctx msg, .ok { Events := (successCtx b ctx msg).events })) := by
  cases h1 : ctx.store.Has KeyForceChangeAdminUsed
  · cases h2 : keeper.IsGovernanceAuthority ctx msg.Authority
    · exact Or.inr (Or.inl ⟨rfl, rfl, handle_unauthorized b ctx keeper msg h1 h2⟩)
    · by_cases h3 : msg.NewAdmin = ""
      · exact Or.inr (Or.inr (Or.inl ⟨rfl, rfl, h3, handle_empty b ctx keeper msg h1 h2 h3⟩))
      · cases h4 : keeper.ContractExists ctx msg.ContractAddr
        · exact Or.inr (Or.inr (Or.inr (Or.inl
            ⟨rfl, rfl, h3, rfl, handle_unknown b ctx keeper msg h1 h2 h3 h4⟩)))
        · exact Or.inr (Or.inr (Or.inr (Or.inr
            ⟨rfl, rfl, h3, rfl, handle_success b ctx keeper msg h1 h2 h3 h4⟩)))
  · exact Or.inl ⟨rfl, handle_used b ctx keeper msg h1⟩

theorem successCtx_has_flag (b : Bech32) (ctx : Context) (msg : MsgForceChangeAdmin) :
    (successCtx b ctx msg).store.Has KeyForceChangeAdminUsed = true := by
  simp [successCtx, KVStore.Has, KVStore.put]

theorem successCtx_flag (b : Bech32) (ctx : Context) (msg : MsgForceChangeAdmin) :
    (successCtx b ctx msg).store.Get KeyForceChangeAdminUsed =
      some ("used_at_height_" ++ sprintfD ctx.BlockHeight) := by
  simp [successCtx, KVStore.Get, KVStore.put]

theorem successCtx_admin (b : Bech32) (ctx : Context) (msg : MsgForceChangeAdmin) :
    (successCtx b ctx msg).store.Get (adminKey msg.ContractAddr) = some msg.NewAdmin := by
  simp [successCtx, KVStore.Get, KVStore.put, adminKey_ne_flag]

theorem handle_error_unchanged (b : Bech32) (ctx : Context) (keeper : Keeper)
    (msg : MsgForceChangeAdmin) (e : WrappedError)
    (h : (HandleMsgForceChangeAdmin b ctx keeper msg).2 = .error e) :
    (HandleMsgForceChangeAdmin b ctx keeper msg).1 = ctx ∧
      (e = AlreadyUsed ∨ e = Unauthorized ∨ e = InvalidNewAdmin ∨ e = UnknownResource) := by
  rcases handle_cases b ctx keeper msg with
    ⟨_, hr⟩ | ⟨_, _, hr⟩ | ⟨_, _, _, hr⟩ | ⟨_, _, _, _, hr⟩ | ⟨_, _, _, _, hr⟩
  all_goals rw [hr] at h ⊢
  · exact ⟨rfl, Or.inl (Outcome.error.inj h).symm⟩
  · exact ⟨rfl, Or.inr (Or.inl (Outcome.error.inj h).symm)⟩
  · exact ⟨rfl, Or.inr (Or.inr (Or.inl (Outcome.error.inj h).symm))⟩
  · exact ⟨rfl, Or.inr (Or.inr (Or.inr (Outcome.error.inj h).symm))⟩
  · cases h

theorem handle_ok_sets_flag (b : Bech32) (ctx : Context) (keeper : Keeper)
    (msg : MsgForceChangeAdmin) (res : Result)
    (h : (HandleMsgForceChangeAdmin b ctx keeper msg).2 = .ok res) :
    (HandleMsgForceChangeAdmin b ctx keeper msg).1 = successCtx b ctx msg ∧
      ctx.store.Has KeyForceChangeAdminUsed = false := by
  rcases handle_cases b ctx keeper msg with
    ⟨_, hr⟩ | ⟨_, _, hr⟩ | ⟨_, _, _, hr⟩ | ⟨_, _, _, _, hr⟩ | ⟨h1, _, _, _, hr⟩
  all_goals rw [hr] at h ⊢
  · cases h
  · cases h
  · cases h
  · cases h
  · exact ⟨rfl, h1⟩

/-- The handler hands the keeper and `store.Set` non-nil values and non-empty keys
only, so no call of it ends in a panic. -/
theorem handle_not_panicked (b : Bech32) (ctx : Context) (keeper : Keeper)
    (msg : MsgForceChangeAdmin) :
    (HandleMsgForceChangeAdmin b ctx keeper msg).2 ≠ .panicked := by
  intro h
  rcases handle_cases b ctx keeper msg with
    ⟨_, hr⟩ | ⟨_, _, hr⟩ | ⟨_, _, _, hr⟩ | ⟨_, _, _, _, hr⟩ | ⟨_, _, _, _, hr⟩
  all_goals rw [hr] at h
  all_goals cases h

/-- Once the flag is in the store, a sequence of calls leaves the store as it is
and every call of the sequence is denied as a replay. -/
theorem runCalls_used (b : Bech32) (keeper : Keeper)
    (calls : List (Int × MsgForceChangeAdmin)) :
    ∀ ctx : Context, ctx.store.Has KeyForceChangeAdminUsed = true →
      (runCalls b keeper ctx calls).1.store = ctx.store ∧
      ∀ r ∈ (runCalls b keeper ctx calls).2, r = .error AlreadyUsed := by
  induction calls with
  | nil => intro ctx _; simp [runCalls]
  | cons c rest ih =>
    intro ctx h
    obtain ⟨ht, m⟩ := c
    have hu := handle_used b { ctx with BlockHeight := ht } keeper m h
    have ih2 := ih { ctx with BlockHeight := ht } h
    simp only [runCalls, hu]
    refine ⟨ih2.1, ?_⟩
    intro r hr
    rcases List.mem_cons.mp hr with h0 | h0
    · exact h0
    · exact ih2.2 r h0

/-- In a sequence of calls from any context at most one call succeeds. -/
theorem runCalls_at_most_one (b : Bech32) (keeper : Keeper)
    (calls : List (Int × MsgForceChangeAdmin)) :
    ∀ ctx : Context, ((runCalls b keeper ctx calls).2.filter succeeded).length ≤ 1 := by
  induction calls with
  | nil => intro ctx; simp [runCalls]
  | cons c rest ih =>
    intro ctx
    obtain ⟨ht, m⟩ := c
    simp only [runCalls]
    cases hr : (HandleMsgForceChangeAdmin b { ctx with BlockHeight := ht } keeper m).2 with
    | error e =>
      have := ih (HandleMsgForceChangeAdmin b { ctx with BlockHeight := ht } keeper m).1
      simpa [List.filter, succeeded] using this
    | panicked => exact absurd hr (handle_not_panicked b _ keeper m)
    | ok res =>
      have hs := (handle_ok_sets_flag b _ keeper m res hr).1
      have hflag : (HandleMsgForceChangeAdmin b { ctx with BlockHeight := ht } keeper m).1.store.Has
          KeyForceChangeAdminUsed = true := by
        rw [hs]; exact successCtx_has_flag b _ m
      have hall := (runCalls_used b keeper rest _ hflag).2
      have hnil : ((runCalls b keeper
          (HandleMsgForceChangeAdmin b { ctx with BlockHeight := ht } keeper m).1 rest).2.filter
            succeeded) = [] := by
        rw [List.filter_eq_nil_iff]
        intro r hmem
        rw [hall r hmem]
        simp [succeeded]
      simp [List.filter, succeeded, hnil]

/-! ## Claims -/

/-- C1: whenever the usage flag `force_change_admin_used` is in the store, the
handler denies the request with the replay error (`ErrUnauthorized` wrapped with
"ForceChangeAdmin can only be used once") and the store after the call is the
store before it, at every key. -/
theorem C1_replay_denied_storage_unchanged (b : Bech32) (ctx : Context) (keeper : Keeper)
    (msg : MsgForceChangeAdmin)
    (h : ctx.store.Has KeyForceChangeAdminUsed = true) :
    (HandleMsgForceChangeAdmin b ctx keeper msg).2 =
        .error (Wrap .ErrUnauthorized "ForceChangeAdmin can only be used once") ∧
      (HandleMsgForceChangeAdmin b ctx keeper msg).1.store = ctx.store ∧
      ∀ key, (HandleMsgForceChangeAdmin b ctx keeper msg).1.store.Get key =
        ctx.store.Get key := by
  rw [handle_used b ctx keeper msg h]
  exact ⟨rfl, rfl, fun _ => rfl⟩

/-- C1 at the context left by the test's first call, with the test's repeated message. -/
theorem C1_witness :
    usedCtx.store.Has KeyForceChangeAdminUsed = true ∧
    ((HandleMsgForceChangeAdmin testBech32 usedCtx testKeeper validMsg).2 =
        .error (Wrap .ErrUnauthorized "ForceChangeAdmin can only be used once") ∧
      (HandleMsgForceChangeAdmin testBech32 usedCtx testKeeper validMsg).1.store =
        usedCtx.store ∧
      ∀ key, (HandleMsgForceChangeAdmin testBech32 usedCtx testKeeper validMsg).1.store.Get key =
        usedCtx.store.Get key) :=
  ⟨by decide, C1_replay_denied_storage_unchanged testBech32 usedCtx testKeeper validMsg
    (by decide)⟩

/-- C2: in every sequence of calls at most one call succeeds; and if a call succeeds,
then in the context it leaves every call, whatever its request, its height and the
answers of the keeper, is denied with the replay error, and so is every call of
the sequence that follows it. -/
theorem C2_at_most_one_success (b : Bech32) (keeper : Keeper) (ctx : Context)
    (calls : List (Int × MsgForceChangeAdmin)) :
    ((runCalls b keeper ctx calls).2.filter succeeded).length ≤ 1 ∧
    ∀ (msg : MsgForceChangeAdmin) (res : Result),
      (HandleMsgForceChangeAdmin b ctx keeper msg).2 = .ok res →
      (∀ (keeper2 : Keeper) (ctx2 : Context) (msg2 : MsgForceChangeAdmin),
          ctx2.store = (HandleMsgForceChangeAdmin b ctx keeper msg).1.store →
          HandleMsgForceChangeAdmin b ctx2 keeper2 msg2 =
            (ctx2, .error (Wrap .ErrUnauthorized "ForceChangeAdmin can only be used once"))) ∧
        ∀ r ∈ (runCalls b keeper (HandleMsgForceChangeAdmin b ctx keeper msg).1 calls).2,
          r = .error (Wrap .ErrUnauthorized "ForceChangeAdmin can only be used once") := by
  refine ⟨runCalls_at_most_one b keeper calls ctx, ?_⟩
  intro msg res h
  have hs := (handle_ok_sets_flag b ctx keeper msg res h).1
  have hflag : (HandleMsgForceChangeAdmin b ctx keeper msg).1.store.Has
      KeyForceChangeAdminUsed = true := by
    rw [hs]; exact successCtx_has_flag b ctx msg
  refine ⟨?_, ?_⟩
  · intro keeper2 ctx2 msg2 hst
    exact handle_used b ctx2 keeper2 msg2 (by rw [hst]; exact hflag)
  · exact (runCalls_used b keeper calls _ hflag).2

/-- C2 on the test's sequence: the valid message succeeds on the empty store, and the
same message, the unauthorized one and the one for another contract are then denied. -/
theorem C2_witness :
    (HandleMsgForceChangeAdmin testBech32 genesisCtx testKeeper validMsg).2 =
        .ok { Events := usedCtx.events } ∧
    ((∀ (keeper2 : Keeper) (ctx2 : Context) (msg2 : MsgForceChangeAdmin),
          ctx2.store = (HandleMsgForceChangeAdmin testBech32 genesisCtx testKeeper validMsg).1.store →
          HandleMsgForceChangeAdmin testBech32 ctx2 keeper2 msg2 =
            (ctx2, .error (Wrap .ErrUnauthorized "ForceChangeAdmin can only be used once"))) ∧
      ∀ r ∈ (runCalls testBech32 testKeeper
          (HandleMsgForceChangeAdmin testBech32 genesisCtx testKeeper validMsg).1
          [(101, validMsg), (102, unauthorizedMsg), (103, invalidContractMsg)]).2,
        r = .error (Wrap .ErrUnauthorized "ForceChangeAdmin can only be used once")) :=
  ⟨rfl, (C2_at_most_one_success testBech32 testKeeper genesisCtx
    [(101, validMsg), (102, unauthorizedMsg), (103, invalidContractMsg)]).2 validMsg
      { Events := usedCtx.events } rfl⟩

/-- C3: with the flag absent, the authority accepted by the keeper, a non-empty new
admin (well-formed or not) and a contract the registry knows, the handler returns a
result and no error; afterwards the admin record of the contract is the new admin
and the flag is present with value "used_at_height_" followed by the block height. -/
theorem C3_valid_request_succeeds (b : Bech32) (ctx : Context) (keeper : Keeper)
    (msg : MsgForceChangeAdmin)
    (h1 : ctx.store.Has KeyForceChangeAdminUsed = false)
    (h2 : keeper.IsGovernanceAuthority ctx msg.Authority = true)
    (h3 : msg.NewAdmin ≠ "")
    (h4 : keeper.ContractExists ctx msg.ContractAddr = true) :
    (∃ res, (HandleMsgForceChangeAdmin b ctx keeper msg).2 = .ok res) ∧
      (HandleMsgForceChangeAdmin b ctx keeper msg).1.store.Get (adminKey msg.ContractAddr) =
        some msg.NewAdmin ∧
      (HandleMsgForceChangeAdmin b ctx keeper msg).1.store.Has KeyForceChangeAdminUsed = true ∧
      (HandleMsgForceChangeAdmin b ctx keeper msg).1.store.Get KeyForceChangeAdminUsed =
        some ("used_at_height_" ++ sprintfD ctx.BlockHeight) := by
  rw [handle_success b ctx keeper msg h1 h2 h3 h4]
  exact ⟨⟨_, rfl⟩, successCtx_admin b ctx msg, successCtx_has_flag b ctx msg,
    successCtx_flag b ctx msg⟩

/-- C3 on scenario A: the test's valid message on the empty store at height 100. -/
theorem C3_witness :
    (genesisCtx.store.Has KeyForceChangeAdminUsed = false ∧
      testKeeper.IsGovernanceAuthority genesisCtx validMsg.Authority = true ∧
      validMsg.NewAdmin ≠ "" ∧
      testKeeper.ContractExists genesisCtx validMsg.ContractAddr = true) ∧
    ((∃ res, (HandleMsgForceChangeAdmin testBech32 genesisCtx testKeeper validMsg).2 = .ok res) ∧
      (HandleMsgForceChangeAdmin testBech32 genesisCtx testKeeper validMsg).1.store.Get
        (adminKey validMsg.ContractAddr) = some validMsg.NewAdmin ∧
      (HandleMsgForceChangeAdmin testBech32 genesisCtx testKeeper validMsg).1.store.Has
        KeyForceChangeAdminUsed = true ∧
      (HandleMsgForceChangeAdmin testBech32 genesisCtx testKeeper validMsg).1.store.Get
        KeyForceChangeAdminUsed = some ("used_at_height_" ++ sprintfD genesisCtx.BlockHeight)) :=
  ⟨by decide, C3_valid_request_succeeds testBech32 genesisCtx testKeeper validMsg
    (by decide) (by decide) (by decide) (by decide)⟩

/-- C4: whenever the handler returns an error, the error is one of the four denials,
the store after the call is the store before it (so the flag is present exactly if
it was and every admin record is as it was), and no event was emitted. -/
theorem C4_denial_changes_nothing (b : Bech32) (ctx : Context) (keeper : Keeper)
    (msg : MsgForceChangeAdmin) (e : WrappedError)
    (h : (HandleMsgForceChangeAdmin b ctx keeper msg).2 = .error e) :
    (e = AlreadyUsed ∨ e = Unauthorized ∨ e = InvalidNewAdmin ∨ e = UnknownResource) ∧
      (HandleMsgForceChangeAdmin b ctx keeper msg).1.store = ctx.store ∧
      (HandleMsgForceChangeAdmin b ctx keeper msg).1.store.Has KeyForceChangeAdminUsed =
        ctx.store.Has KeyForceChangeAdminUsed ∧
      (∀ c, (HandleMsgForceChangeAdmin b ctx keeper msg).1.store.Get (adminKey c) =
        ctx.store.Get (adminKey c)) ∧
      (HandleMsgForceChangeAdmin b ctx keeper msg).1.events = ctx.events ∧
      emitted ctx (HandleMsgForceChangeAdmin b ctx keeper msg).1 = [] := by
  obtain ⟨hc, he⟩ := handle_error_unchanged b ctx keeper msg e h
  rw [hc]
  exact ⟨he, rfl, rfl, fun _ => rfl, rfl, by simp [emitted]⟩

/-- C4 on scenario E: a contract the registry does not know, on the empty store. -/
theorem C4_witness :
    (HandleMsgForceChangeAdmin testBech32 genesisCtx testKeeper invalidContractMsg).2 =
        .error UnknownResource ∧
    ((UnknownResource = AlreadyUsed ∨ UnknownResource = Unauthorized ∨
        UnknownResource = InvalidNewAdmin ∨ UnknownResource = UnknownResource) ∧
      (HandleMsgForceChangeAdmin testBech32 genesisCtx testKeeper invalidContractMsg).1.store =
        genesisCtx.store ∧
      (HandleMsgForceChangeAdmin testBech32 genesisCtx testKeeper invalidContractMsg).1.store.Has
        KeyForceChangeAdminUsed = genesisCtx.store.Has KeyForceChangeAdminUsed ∧
      (∀ c, (HandleMsgForceChangeAdmin testBech32 genesisCtx testKeeper
          invalidContractMsg).1.store.Get (adminKey c) = genesisCtx.store.Get (adminKey c)) ∧
      (HandleMsgForceChangeAdmin testBech32 genesisCtx testKeeper invalidContractMsg).1.events =
        genesisCtx.events ∧
      emitted genesisCtx
        (HandleMsgForceChangeAdmin testBech32 genesisCtx testKeeper invalidContractMsg).1 = []) :=
  ⟨rfl, C4_denial_changes_nothing testBech32 genesisCtx testKeeper invalidContractMsg
    UnknownResource rfl⟩

/-- C5, the claim as stated fails: in the context left by the test's successful call
the test's unauthorized message is not answered with "Only governance can perform
this action" but with the replay error, whose text does not contain that message. -/
theorem C5_counterexample :
    testKeeper.IsGovernanceAuthority usedCtx unauthorizedMsg.Authority = false ∧
    (HandleMsgForceChangeAdmin testBech32 usedCtx testKeeper unauthorizedMsg).2 =
      .error (Wrap .ErrUnauthorized "ForceChangeAdmin can only be used once") ∧
    (HandleMsgForceChangeAdmin testBech32 usedCtx testKeeper unauthorizedMsg).2 ≠
      .error (Wrap .ErrUnauthorized "Only governance can perform this action") ∧
    Contains (Wrap .ErrUnauthorized "ForceChangeAdmin can only be used once").Error
      "Only governance can perform this action" = false := by
  refine ⟨by decide, rfl, ?_, by decide⟩
  intro h
  have h2 : (HandleMsgForceChangeAdmin testBech32 usedCtx testKeeper unauthorizedMsg).2 =
      .error (Wrap .ErrUnauthorized "ForceChangeAdmin can only be used once") := rfl
  rw [h2] at h
  exact absurd (Outcome.error.inj h) (by decide)

/-- C5 as amended: a request whose authority the keeper does not accept is denied and
the store is left as it was; the denial is "Only governance can perform this action"
when the flag is absent, and the replay denial when the flag is present. -/
theorem C5_unauthorized_denied (b : Bech32) (ctx : Context) (keeper : Keeper)
    (msg : MsgForceChangeAdmin)
    (h : keeper.IsGovernanceAuthority ctx msg.Authority = false) :
    (ctx.store.Has KeyForceChangeAdminUsed = false →
        (HandleMsgForceChangeAdmin b ctx keeper msg).2 =
          .error (Wrap .ErrUnauthorized "Only governance can perform this action")) ∧
      (ctx.store.Has KeyForceChangeAdminUsed = true →
        (HandleMsgForceChangeAdmin b ctx keeper msg).2 =
          .error (Wrap .ErrUnauthorized "ForceChangeAdmin can only be used once")) ∧
      (HandleMsgForceChangeAdmin b ctx keeper msg).1.store = ctx.store ∧
      (HandleMsgForceChangeAdmin b ctx keeper msg).1 = ctx := by
  cases hf : ctx.store.Has KeyForceChangeAdminUsed
  · rw [handle_unauthorized b ctx keeper msg hf h]
    exact ⟨fun _ => rfl, fun hc => (by cases hc), rfl, rfl⟩
  · rw [handle_used b ctx keeper msg hf]
    exact ⟨fun hc => (by cases hc), fun _ => rfl, rfl, rfl⟩

/-- C5 as amended on scenario C: the unauthorized message on the empty store. -/
theorem C5_witness :
    testKeeper.IsGovernanceAuthority genesisCtx unauthorizedMsg.Authority = false ∧
    genesisCtx.store.Has KeyForceChangeAdminUsed = false ∧
    (HandleMsgForceChangeAdmin testBech32 genesisCtx testKeeper unauthorizedMsg).2 =
      .error (Wrap .ErrUnauthorized "Only governance can perform this action") ∧
    (HandleMsgForceChangeAdmin testBech32 genesisCtx testKeeper unauthorizedMsg).1.store =
      genesisCtx.store :=
  ⟨by decide, by decide,
    (C5_unauthorized_denied testBech32 genesisCtx testKeeper unauthorizedMsg (by decide)).1
      (by decide),
    (C5_unauthorized_denied testBech32 genesisCtx testKeeper unauthorizedMsg (by decide)).2.2.1⟩

/-- C6, the claim as stated fails: the test's successful call on the empty store
emits two events, not one. -/
theorem C6_counterexample :
    succeeded (HandleMsgForceChangeAdmin testBech32 genesisCtx testKeeper validMsg).2 = true ∧
    (emitted genesisCtx
      (HandleMsgForceChangeAdmin testBech32 genesisCtx testKeeper validMsg).1).length = 2 ∧
    (emitted genesisCtx
      (HandleMsgForceChangeAdmin testBech32 genesisCtx testKeeper validMsg).1).length ≠ 1 := by
  refine ⟨rfl, rfl, ?_⟩
  have h : (emitted genesisCtx
      (HandleMsgForceChangeAdmin testBech32 genesisCtx testKeeper validMsg).1).length = 2 := rfl
  rw [h]
  decide

/-- C6 as amended: a successful call emits exactly two events, first "admin_changed"
by the keeper and then "force_admin_change" by the handler; exactly one of the two
has type "force_admin_change", and the result carries all events collected so far. -/
theorem C6_success_emits_two_events (b : Bech32) (ctx : Context) (keeper : Keeper)
    (msg : MsgForceChangeAdmin) (res : Result)
    (h : (HandleMsgForceChangeAdmin b ctx keeper msg).2 = .ok res) :
    emitted ctx (HandleMsgForceChangeAdmin b ctx keeper msg).1 =
        [NewEvent "admin_changed"
           [NewAttribute "contract" (b.AccAddressString msg.ContractAddr),
            NewAttribute "new_admin" (b.AccAddressString msg.NewAdmin)],
         NewEvent "force_admin_change"
           [NewAttribute "contract" msg.ContractAddr,
            NewAttribute "new_admin" msg.NewAdmin,
            NewAttribute "executed_at_height" (sprintfD ctx.BlockHeight)]] ∧
      (emitted ctx (HandleMsgForceChangeAdmin b ctx keeper msg).1).length = 2 ∧
      ((emitted ctx (HandleMsgForceChangeAdmin b ctx keeper msg).1).filter
        (fun e => e.Ty == "force_admin_change")).length = 1 ∧
      res.Events = ctx.events ++ emitted ctx (HandleMsgForceChangeAdmin b ctx keeper msg).1 := by
  have hs := (handle_ok_sets_flag b ctx keeper msg res h).1
  have hem : emitted ctx (successCtx b ctx msg) =
      [NewEvent "admin_changed"
         [NewAttribute "contract" (b.AccAddressString msg.ContractAddr),
          NewAttribute "new_admin" (b.AccAddressString msg.NewAdmin)],
       NewEvent "force_admin_change"
         [NewAttribute "contract" msg.ContractAddr,
          NewAttribute "new_admin" msg.NewAdmin,
          NewAttribute "executed_at_height" (sprintfD ctx.BlockHeight)]] := by
    simp [emitted, successCtx]
  have hres : res.Events = (successCtx b ctx msg).events := by
    rcases handle_cases b ctx keeper msg with
      ⟨_, hr⟩ | ⟨_, _, hr⟩ | ⟨_, _, _, hr⟩ | ⟨_, _, _, _, hr⟩ | ⟨_, _, _, _, hr⟩
    all_goals rw [hr] at h
    · cases h
    · cases h
    · cases h
    · cases h
    · have := Outcome.ok.inj h
      rw [← this]
  rw [hs, hem]
  refine ⟨rfl, rfl, ?_, ?_⟩
  · simp [NewEvent, List.filter]
  · rw [hres]; simp [successCtx]

/-- C6 as amended on scenario A. -/
theorem C6_witness :
    (HandleMsgForceChangeAdmin testBech32 genesisCtx testKeeper validMsg).2 =
        .ok { Events := usedCtx.events } ∧
    (emitted genesisCtx
        (HandleMsgForceChangeAdmin testBech32 genesisCtx testKeeper validMsg).1).length = 2 ∧
    ((emitted genesisCtx
        (HandleMsgForceChangeAdmin testBech32 genesisCtx testKeeper validMsg).1).filter
        (fun e => e.Ty == "force_admin_change")).length = 1 :=
  ⟨rfl,
    (C6_success_emits_two_events testBech32 genesisCtx testKeeper validMsg
      { Events := usedCtx.events } rfl).2.1,
    (C6_success_emits_two_events testBech32 genesisCtx testKeeper validMsg
      { Events := usedCtx.events } rfl).2.2.1⟩

/-- C7: the handler denies with the denial of the first of the four checks, taken in
the order replay, authority, new-admin, resource-existence, that fails, and succeeds
when none fails.  So: flag present and wrong authority gives the replay denial; flag
absent, wrong authority and empty new admin gives the authority denial; flag absent,
right authority, empty new admin and unregistered contract gives the new-admin
denial; and the resource denial comes only when the three earlier checks pass. -/
theorem C7_first_failing_check_decides (b : Bech32) (ctx : Context) (keeper : Keeper)
    (msg : MsgForceChangeAdmin) :
    (∀ e, (HandleMsgForceChangeAdmin b ctx keeper msg).2 = .error e ↔
        specFirstFailure (specGuardChecks ctx keeper msg) = some e) ∧
      ((∃ res, (HandleMsgForceChangeAdmin b ctx keeper msg).2 = .ok res) ↔
        specFirstFailure (specGuardChecks ctx keeper msg) = none) ∧
      (ctx.store.Has KeyForceChangeAdminUsed = true →
        keeper.IsGovernanceAuthority ctx msg.Authority = false →
        (HandleMsgForceChangeAdmin b ctx keeper msg).2 = .error AlreadyUsed) ∧
      (ctx.store.Has KeyForceChangeAdminUsed = false →
        keeper.IsGovernanceAuthority ctx msg.Authority = false → msg.NewAdmin = "" →
        (HandleMsgForceChangeAdmin b ctx keeper msg).2 = .error Unauthorized) ∧
      (ctx.store.Has KeyForceChangeAdminUsed = false →
        keeper.IsGovernanceAuthority ctx msg.Authority = true → msg.NewAdmin = "" →
        keeper.ContractExists ctx msg.ContractAddr = false →
        (HandleMsgForceChangeAdmin b ctx keeper msg).2 = .error InvalidNewAdmin) ∧
      ((HandleMsgForceChangeAdmin b ctx keeper msg).2 = .error UnknownResource →
        ctx.store.Has KeyForceChangeAdminUsed = false ∧
        keeper.IsGovernanceAuthority ctx msg.Authority = true ∧ msg.NewAdmin ≠ "") := by
  refine ⟨?_, ?_, ?_, ?_, ?_, ?_⟩
  · intro e
    rcases handle_cases b ctx keeper msg with
      ⟨h1, hr⟩ | ⟨h1, h2, hr⟩ | ⟨h1, h2, h3, hr⟩ | ⟨h1, h2, h3, h4, hr⟩ | ⟨h1, h2, h3, h4, hr⟩
    all_goals rw [hr]
    · simp [specFirstFailure, specGuardChecks, h1]
    · simp [specFirstFailure, specGuardChecks, h1, h2]
    · simp [specFirstFailure, specGuardChecks, h1, h2, h3]
    · simp [specFirstFailure, specGuardChecks, h1, h2, h3, h4]
    · simp [specFirstFailure, specGuardChecks, h1, h2, h3, h4]
  · rcases handle_cases b ctx keeper msg with
      ⟨h1, hr⟩ | ⟨h1, h2, hr⟩ | ⟨h1, h2, h3, hr⟩ | ⟨h1, h2, h3, h4, hr⟩ | ⟨h1, h2, h3, h4, hr⟩
    all_goals rw [hr]
    · simp [specFirstFailure, specGuardChecks, h1]
    · simp [specFirstFailure, specGuardChecks, h1, h2]
    · simp [specFirstFailure, specGuardChecks, h1, h2, h3]
    · simp [specFirstFailure, specGuardChecks, h1, h2, h3, h4]
    · simp [specFirstFailure, specGuardChecks, h1, h2, h3, h4]
  · intro h1 _
    rw [handle_used b ctx keeper msg h1]
  · intro h1 h2 _
    rw [handle_unauthorized b ctx keeper msg h1 h2]
  · intro h1 h2 h3 _
    rw [handle_empty b ctx keeper msg h1 h2 h3]
  · intro h
    rcases handle_cases b ctx keeper msg with
      ⟨h1, hr⟩ | ⟨h1, h2, hr⟩ | ⟨h1, h2, h3, hr⟩ | ⟨h1, h2, h3, h4, hr⟩ | ⟨h1, h2, h3, h4, hr⟩
    all_goals rw [hr] at h
    · exact absurd (Outcome.error.inj h) (by decide)
    · exact absurd (Outcome.error.inj h) (by decide)
    · exact absurd (Outcome.error.inj h) (by decide)
    · exact ⟨h1, h2, h3⟩
    · cases h

/-- C7 on four requests: each of the three orderings at a request that fails two
checks at once, and the resource denial at a request that passes the first three. -/
theorem C7_witness :
    (usedCtx.store.Has KeyForceChangeAdminUsed = true ∧
      testKeeper.IsGovernanceAuthority usedCtx unauthorizedMsg.Authority = false ∧
      (HandleMsgForceChangeAdmin testBech32 usedCtx testKeeper unauthorizedMsg).2 =
        .error AlreadyUsed) ∧
    (genesisCtx.store.Has KeyForceChangeAdminUsed = false ∧
      testKeeper.IsGovernanceAuthority genesisCtx unauthorizedEmptyMsg.Authority = false ∧
      unauthorizedEmptyMsg.NewAdmin = "" ∧
      (HandleMsgForceChangeAdmin testBech32 genesisCtx testKeeper unauthorizedEmptyMsg).2 =
        .error Unauthorized) ∧
    (testKeeper.IsGovernanceAuthority genesisCtx emptyUnknownMsg.Authority = true ∧
      emptyUnknownMsg.NewAdmin = "" ∧
      testKeeper.ContractExists genesisCtx emptyUnknownMsg.ContractAddr = false ∧
      (HandleMsgForceChangeAdmin testBech32 genesisCtx testKeeper emptyUnknownMsg).2 =
        .error InvalidNewAdmin) ∧
    ((HandleMsgForceChangeAdmin testBech32 genesisCtx testKeeper unknownContractMsg).2 =
        .error UnknownResource ∧
      genesisCtx.store.Has KeyForceChangeAdminUsed = false ∧
      testKeeper.IsGovernanceAuthority genesisCtx unknownContractMsg.Authority = true ∧
      unknownContractMsg.NewAdmin ≠ "") :=
  ⟨⟨by decide, by decide,
      (C7_first_failing_check_decides testBech32 usedCtx testKeeper unauthorizedMsg).2.2.1
        (by decide) (by decide)⟩,
    ⟨by decide, by decide, by decide,
      (C7_first_failing_check_decides testBech32 genesisCtx testKeeper
        unauthorizedEmptyMsg).2.2.2.1 (by decide) (by decide) (by decide)⟩,
    ⟨by decide, by decide, by decide,
      (C7_first_failing_check_decides testBech32 genesisCtx testKeeper
        emptyUnknownMsg).2.2.2.2.1 (by decide) (by decide) (by decide) (by decide)⟩,
    ⟨rfl, (C7_first_failing_check_decides testBech32 genesisCtx testKeeper
        unknownContractMsg).2.2.2.2.2 rfl⟩⟩

/-- C8, the code at the failing input: on the empty store, the test's message whose
new admin is "invalid_address", a string the codec rejects, is not denied: the
handler returns a result, stores "invalid_address" as admin of the contract, sets
the flag and emits its two events. -/
theorem C8_malformed_new_admin_accepted :
    genesisCtx.store.Has KeyForceChangeAdminUsed = false ∧
    testKeeper.IsGovernanceAuthority genesisCtx invalidNewAdminMsg.Authority = true ∧
    testBech32.AccAddressFromBech32 invalidNewAdminMsg.NewAdmin = none ∧
    invalidNewAdminMsg.ValidateBasic testBech32 =
      some (Wrap .ErrInvalidAddress "invalid new admin address") ∧
    succeeded (HandleMsgForceChangeAdmin testBech32 genesisCtx testKeeper
      invalidNewAdminMsg).2 = true ∧
    (HandleMsgForceChangeAdmin testBech32 genesisCtx testKeeper invalidNewAdminMsg).1.store.Get
      (adminKey "terra1contractaddress") = some "invalid_address" ∧
    (HandleMsgForceChangeAdmin testBech32 genesisCtx testKeeper invalidNewAdminMsg).1.store.Has
      KeyForceChangeAdminUsed = true ∧
    (emitted genesisCtx (HandleMsgForceChangeAdmin testBech32 genesisCtx testKeeper
      invalidNewAdminMsg).1).length = 2 := by
  refine ⟨by decide, by decide, by decide, by decide, rfl, by decide, by decide, rfl⟩

/-- C9: with the flag absent, the authority accepted, a non-empty new admin and a
contract the registry does not know, the handler denies with `ErrUnknownRequest`
wrapped with "contract does not exist"; the store is as before, so no admin record
was written and the flag is still absent, and no event was emitted. -/
theorem C9_unknown_resource_denied (b : Bech32) (ctx : Context) (keeper : Keeper)
    (msg : MsgForceChangeAdmin)
    (h1 : ctx.store.Has KeyForceChangeAdminUsed = false)
    (h2 : keeper.IsGovernanceAuthority ctx msg.Authority = true)
    (h3 : msg.NewAdmin ≠ "")
    (h4 : keeper.ContractExists ctx msg.ContractAddr = false) :
    (HandleMsgForceChangeAdmin b ctx keeper msg).2 =
        .error (Wrap .ErrUnknownRequest "contract does not exist") ∧
      (HandleMsgForceChangeAdmin b ctx keeper msg).1.store = ctx.store ∧
      (∀ c, (HandleMsgForceChangeAdmin b ctx keeper msg).1.store.Get (adminKey c) =
        ctx.store.Get (adminKey c)) ∧
      (HandleMsgForceChangeAdmin b ctx keeper msg).1.store.Has KeyForceChangeAdminUsed = false ∧
      emitted ctx (HandleMsgForceChangeAdmin b ctx keeper msg).1 = [] := by
  rw [handle_unknown b ctx keeper msg h1 h2 h3 h4]
  exact ⟨rfl, rfl, fun _ => rfl, h1, by simp [emitted]⟩

/-- C9 on scenario E: an unregistered contract on the empty store. -/
theorem C9_witness :
    (genesisCtx.store.Has KeyForceChangeAdminUsed = false ∧
      testKeeper.IsGovernanceAuthority genesisCtx unknownContractMsg.Authority = true ∧
      unknownContractMsg.NewAdmin ≠ "" ∧
      testKeeper.ContractExists genesisCtx unknownContractMsg.ContractAddr = false) ∧
    ((HandleMsgForceChangeAdmin testBech32 genesisCtx testKeeper unknownContractMsg).2 =
        .error (Wrap .ErrUnknownRequest "contract does not exist") ∧
      (HandleMsgForceChangeAdmin testBech32 genesisCtx testKeeper unknownContractMsg).1.store =
        genesisCtx.store ∧
      (∀ c, (HandleMsgForceChangeAdmin testBech32 genesisCtx testKeeper
          unknownContractMsg).1.store.Get (adminKey c) = genesisCtx.store.Get (adminKey c)) ∧
      (HandleMsgForceChangeAdmin testBech32 genesisCtx testKeeper unknownContractMsg).1.store.Has
        KeyForceChangeAdminUsed = false ∧
      emitted genesisCtx
        (HandleMsgForceChangeAdmin testBech32 genesisCtx testKeeper unknownContractMsg).1 = []) :=
  ⟨by decide, C9_unknown_resource_denied testBech32 genesisCtx testKeeper unknownContractMsg
    (by decide) (by decide) (by decide) (by decide)⟩

theorem denial_texts_lack_contract_message (e : WrappedError)
    (h : e = AlreadyUsed ∨ e = Unauthorized ∨ e = InvalidNewAdmin ∨ e = UnknownResource) :
    Contains e.Error "invalid contract address" = false := by
  rcases h with h | h | h | h <;> subst h <;> decide

/-- C10, the claim as stated fails: the codec rejects "invalid_address", yet for the
test's message with that contract address the handler returns, in the context left
by the test's successful call, the replay error, and on the empty store the error
"contract does not exist"; neither text contains "invalid contract address". -/
theorem C10_counterexample :
    testBech32.AccAddressFromBech32 invalidContractMsg.ContractAddr = none ∧
    (HandleMsgForceChangeAdmin testBech32 usedCtx testKeeper invalidContractMsg).2 =
      .error (Wrap .ErrUnauthorized "ForceChangeAdmin can only be used once") ∧
    Contains (Wrap .ErrUnauthorized "ForceChangeAdmin can only be used once").Error
      "invalid contract address" = false ∧
    (HandleMsgForceChangeAdmin testBech32 genesisCtx testKeeper invalidContractMsg).2 =
      .error (Wrap .ErrUnknownRequest "contract does not exist") ∧
    Contains (Wrap .ErrUnknownRequest "contract does not exist").Error
      "invalid contract address" = false := by
  refine ⟨by decide, rfl, by decide, rfl, by decide⟩

/-- C10 as amended: for a message whose contract address the codec rejects,
`ValidateBasic` returns the error "invalid contract address" when the authority is
well-formed; the handler does not check the format of the address, and when the
registry does not know the address it denies the call, the context unchanged, with
the first failing of its four checks, an error whose text does not contain
"invalid contract address". -/
theorem C10_malformed_contract_address (b : Bech32) (msg : MsgForceChangeAdmin)
    (hbad : b.AccAddressFromBech32 msg.ContractAddr = none) :
    ((b.AccAddressFromBech32 msg.Authority).isSome = true →
        msg.ValidateBasic b = some (Wrap .ErrInvalidAddress "invalid contract address") ∧
        Contains (Wrap .ErrInvalidAddress "invalid contract address").Error
          "invalid contract address" = true) ∧
      ∀ (ctx : Context) (keeper : Keeper),
        keeper.ContractExists ctx msg.ContractAddr = false →
        ∃ e, HandleMsgForceChangeAdmin b ctx keeper msg = (ctx, .error e) ∧
          specFirstFailure (specGuardChecks ctx keeper msg) = some e ∧
          (e = AlreadyUsed ∨ e = Unauthorized ∨ e = InvalidNewAdmin ∨ e = UnknownResource) ∧
          Contains e.Error "invalid contract address" = false := by
  refine ⟨?_, ?_⟩
  · intro ha
    refine ⟨?_, by decide⟩
    cases hau : b.AccAddressFromBech32 msg.Authority with
    | none => rw [hau] at ha; cases ha
    | some a => simp [MsgForceChangeAdmin.ValidateBasic, hau, hbad]
  · intro ctx keeper hc
    rcases handle_cases b ctx keeper msg with
      ⟨h1, hr⟩ | ⟨h1, h2, hr⟩ | ⟨h1, h2, h3, hr⟩ | ⟨h1, h2, h3, h4, hr⟩ | ⟨h1, h2, h3, h4, hr⟩
    · exact ⟨_, hr, by simp [specFirstFailure, specGuardChecks, h1], Or.inl rfl,
        denial_texts_lack_contract_message _ (Or.inl rfl)⟩
    · exact ⟨_, hr, by simp [specFirstFailure, specGuardChecks, h1, h2], Or.inr (Or.inl rfl),
        denial_texts_lack_contract_message _ (Or.inr (Or.inl rfl))⟩
    · exact ⟨_, hr, by simp [specFirstFailure, specGuardChecks, h1, h2, h3],
        Or.inr (Or.inr (Or.inl rfl)),
        denial_texts_lack_contract_message _ (Or.inr (Or.inr (Or.inl rfl)))⟩
    · exact ⟨_, hr, by simp [specFirstFailure, specGuardChecks, h1, h2, h3, h4],
        Or.inr (Or.inr (Or.inr rfl)),
        denial_texts_lack_contract_message _ (Or.inr (Or.inr (Or.inr rfl)))⟩
    · rw [hc] at h4; cases h4

/-- C10 as amended on the test's message with contract address "invalid_address". -/
theorem C10_witness :
    testBech32.AccAddressFromBech32 invalidContractMsg.ContractAddr = none ∧
    (testBech32.AccAddressFromBech32 invalidContractMsg.Authority).isSome = true ∧
    invalidContractMsg.ValidateBasic testBech32 =
      some (Wrap .ErrInvalidAddress "invalid contract address") ∧
    testKeeper.ContractExists genesisCtx invalidContractMsg.ContractAddr = false ∧
    ∃ e, HandleMsgForceChangeAdmin testBech32 genesisCtx testKeeper invalidContractMsg =
        (genesisCtx, .error e) ∧
      specFirstFailure (specGuardChecks genesisCtx testKeeper invalidContractMsg) = some e ∧
      (e = AlreadyUsed ∨ e = Unauthorized ∨ e = InvalidNewAdmin ∨ e = UnknownResource) ∧
      Contains e.Error "invalid contract address" = false :=
  ⟨by decide, by decide,
    ((C10_malformed_contract_address testBech32 invalidContractMsg (by decide)).1
      (by decide)).1,
    by decide,
    (C10_malformed_contract_address testBech32 invalidContractMsg (by decide)).2
      genesisCtx testKeeper (by decide)⟩

theorem adminKey_injective (a c : String) (h : adminKey a = adminKey c) : a = c := by
  have hd := congrArg String.data h
  simp [adminKey, String.data_append] at hd
  exact String.ext hd

theorem has_of_get (s : KVStore) (key v : String) (h : s.Get key = some v) :
    s.Has key = true := by
  simp [KVStore.Has, KVStore.Get] at h ⊢
  rw [h]; rfl

theorem successCtx_frame (b : Bech32) (ctx : Context) (msg : MsgForceChangeAdmin)
    (key : String) (h1 : key ≠ adminKey msg.ContractAddr) (h2 : key ≠ KeyForceChangeAdminUsed) :
    (successCtx b ctx msg).store.Get key = ctx.store.Get key := by
  simp [successCtx, KVStore.Get, KVStore.put, h1, h2]

/-- C11: a denied attempt does not use up the capability.  If a request is denied in
a context and a second request would be approved in that context, then the second
request run after the first is approved with the same result and leaves the same
context, hence the same store, as the second request run alone; the flag was
absent before and is still absent after the denied attempt. -/
theorem C11_denied_attempt_keeps_capability (b : Bech32) (ctx : Context) (keeper : Keeper)
    (m1 m2 : MsgForceChangeAdmin) (e : WrappedError) (res : Result)
    (h1 : (HandleMsgForceChangeAdmin b ctx keeper m1).2 = .error e)
    (h2 : (HandleMsgForceChangeAdmin b ctx keeper m2).2 = .ok res) :
    ctx.store.Has KeyForceChangeAdminUsed = false ∧
      (HandleMsgForceChangeAdmin b ctx keeper m1).1.store.Has KeyForceChangeAdminUsed = false ∧
      (HandleMsgForceChangeAdmin b (HandleMsgForceChangeAdmin b ctx keeper m1).1 keeper m2).2 =
        .ok res ∧
      (HandleMsgForceChangeAdmin b (HandleMsgForceChangeAdmin b ctx keeper m1).1 keeper m2).1.store =
        (HandleMsgForceChangeAdmin b ctx keeper m2).1.store ∧
      HandleMsgForceChangeAdmin b (HandleMsgForceChangeAdmin b ctx keeper m1).1 keeper m2 =
        HandleMsgForceChangeAdmin b ctx keeper m2 := by
  have hc := (handle_error_unchanged b ctx keeper m1 e h1).1
  have hf := (handle_ok_sets_flag b ctx keeper m2 res h2).2
  rw [hc]
  exact ⟨hf, hf, h2, rfl, rfl⟩

/-- C11 on the empty store: the unauthorized message is denied, and the valid message
after it is approved as it is alone. -/
theorem C11_witness :
    ((HandleMsgForceChangeAdmin testBech32 genesisCtx testKeeper unauthorizedMsg).2 =
        .error Unauthorized ∧
      (HandleMsgForceChangeAdmin testBech32 genesisCtx testKeeper validMsg).2 =
        .ok { Events := usedCtx.events }) ∧
    (genesisCtx.store.Has KeyForceChangeAdminUsed = false ∧
      (HandleMsgForceChangeAdmin testBech32 genesisCtx testKeeper
        unauthorizedMsg).1.store.Has KeyForceChangeAdminUsed = false ∧
      (HandleMsgForceChangeAdmin testBech32
        (HandleMsgForceChangeAdmin testBech32 genesisCtx testKeeper unauthorizedMsg).1
        testKeeper validMsg).2 = .ok { Events := usedCtx.events } ∧
      (HandleMsgForceChangeAdmin testBech32
        (HandleMsgForceChangeAdmin testBech32 genesisCtx testKeeper unauthorizedMsg).1
        testKeeper validMsg).1.store =
        (HandleMsgForceChangeAdmin testBech32 genesisCtx testKeeper validMsg).1.store ∧
      HandleMsgForceChangeAdmin testBech32
        (HandleMsgForceChangeAdmin testBech32 genesisCtx testKeeper unauthorizedMsg).1
        testKeeper validMsg =
        HandleMsgForceChangeAdmin testBech32 genesisCtx testKeeper validMsg) :=
  ⟨⟨rfl, rfl⟩, C11_denied_attempt_keeps_capability testBech32 genesisCtx testKeeper
    unauthorizedMsg validMsg Unauthorized { Events := usedCtx.events } rfl rfl⟩

/-- C12: once the flag is in the store with value `v`, it is there with value `v`
after a call of the handler with any request and after a call of
`Keeper.ForceChangeAdmin` with any contract address and new admin; the admin key of
a contract is never the key of the flag. -/
theorem C12_flag_never_cleared_or_overwritten (b : Bech32) (ctx : Context) (keeper : Keeper)
    (v : String) (h : ctx.store.Get KeyForceChangeAdminUsed = some v) :
    (∀ msg, (HandleMsgForceChangeAdmin b ctx keeper msg).1.store.Get KeyForceChangeAdminUsed =
        some v) ∧
      (∀ c n, (keeper.ForceChangeAdmin b ctx c n).1.store.Get KeyForceChangeAdminUsed =
        some v) ∧
      (∀ msg, (HandleMsgForceChangeAdmin b ctx keeper msg).1.store.Has KeyForceChangeAdminUsed =
        true) ∧
      (∀ c n, (keeper.ForceChangeAdmin b ctx c n).1.store.Has KeyForceChangeAdminUsed = true) ∧
      ∀ c, adminKey c ≠ KeyForceChangeAdminUsed := by
  have hh := has_of_get ctx.store KeyForceChangeAdminUsed v h
  have hk : ∀ c n, (keeper.ForceChangeAdmin b ctx c n).1.store.Get KeyForceChangeAdminUsed =
      some v := by
    intro c n
    cases n with
    | none => rw [forceChangeAdmin_nil]; exact h
    | some n =>
      rw [forceChangeAdmin_eq]
      simp only [KVStore.Get, KVStore.put, flag_ne_adminKey c.contents, if_false]
      exact h
  refine ⟨?_, hk, ?_, ?_, adminKey_ne_flag⟩
  · intro msg
    rw [handle_used b ctx keeper msg hh]
    exact h
  · intro msg
    rw [handle_used b ctx keeper msg hh]
    exact hh
  · intro c n
    exact has_of_get _ _ v (hk c n)

/-- C12 in the context left by the test's successful call at height 100. -/
theorem C12_witness :
    usedCtx.store.Get KeyForceChangeAdminUsed = some "used_at_height_100" ∧
    (HandleMsgForceChangeAdmin testBech32 usedCtx testKeeper validMsg).1.store.Get
      KeyForceChangeAdminUsed = some "used_at_height_100" ∧
    (testKeeper.ForceChangeAdmin testBech32 usedCtx (some "terra1othercontract")
      (some "")).1.store.Get KeyForceChangeAdminUsed = some "used_at_height_100" :=
  ⟨by decide,
    (C12_flag_never_cleared_or_overwritten testBech32 usedCtx testKeeper "used_at_height_100"
      (by decide)).1 validMsg,
    (C12_flag_never_cleared_or_overwritten testBech32 usedCtx testKeeper "used_at_height_100"
      (by decide)).2.1 (some "terra1othercontract") (some "")⟩

theorem emitted_successCtx (b : Bech32) (ctx : Context) (msg : MsgForceChangeAdmin) :
    emitted ctx (successCtx b ctx msg) =
      [NewEvent "admin_changed"
         [NewAttribute "contract" (b.AccAddressString msg.ContractAddr),
          NewAttribute "new_admin" (b.AccAddressString msg.NewAdmin)],
       NewEvent "force_admin_change"
         [NewAttribute "contract" msg.ContractAddr,
          NewAttribute "new_admin" msg.NewAdmin,
          NewAttribute "executed_at_height" (sprintfD ctx.BlockHeight)]] := by
  simp [emitted, successCtx]

/-- C13: the one event of type "force_admin_change" that a successful call emits is
the last event of the call and has exactly the attributes contract, new_admin and
executed_at_height, holding the contract address and the new admin of the request
and the block height in decimal; the flag written by the same call holds
"used_at_height_" followed by that same decimal height. -/
theorem C13_audit_event_contents (b : Bech32) (ctx : Context) (keeper : Keeper)
    (msg : MsgForceChangeAdmin) (res : Result)
    (h : (HandleMsgForceChangeAdmin b ctx keeper msg).2 = .ok res) :
    (emitted ctx (HandleMsgForceChangeAdmin b ctx keeper msg).1).filter
        (fun e => e.Ty == "force_admin_change") =
        [{ Ty := "force_admin_change"
           Attributes :=
             [{ Key := "contract", Value := msg.ContractAddr },
              { Key := "new_admin", Value := msg.NewAdmin },
              { Key := "executed_at_height", Value := sprintfD ctx.BlockHeight }] }] ∧
      (emitted ctx (HandleMsgForceChangeAdmin b ctx keeper msg).1).getLast? =
        some { Ty := "force_admin_change"
               Attributes :=
                 [{ Key := "contract", Value := msg.ContractAddr },
                  { Key := "new_admin", Value := msg.NewAdmin },
                  { Key := "executed_at_height", Value := sprintfD ctx.BlockHeight }] } ∧
      (HandleMsgForceChangeAdmin b ctx keeper msg).1.store.Get KeyForceChangeAdminUsed =
        some ("used_at_height_" ++ sprintfD ctx.BlockHeight) := by
  rw [(handle_ok_sets_flag b ctx keeper msg res h).1, emitted_successCtx]
  refine ⟨?_, ?_, successCtx_flag b ctx msg⟩
  · simp [NewEvent, NewAttribute, List.filter]
  · simp [NewEvent, NewAttribute]

/-- C13 on scenario A at height 100. -/
theorem C13_witness :
    (HandleMsgForceChangeAdmin testBech32 genesisCtx testKeeper validMsg).2 =
        .ok { Events := usedCtx.events } ∧
    (emitted genesisCtx
        (HandleMsgForceChangeAdmin testBech32 genesisCtx testKeeper validMsg).1).getLast? =
        some { Ty := "force_admin_change"
               Attributes :=
                 [{ Key := "contract", Value := validMsg.ContractAddr },
                  { Key := "new_admin", Value := validMsg.NewAdmin },
                  { Key := "executed_at_height", Value := sprintfD genesisCtx.BlockHeight }] } ∧
    (HandleMsgForceChangeAdmin testBech32 genesisCtx testKeeper validMsg).1.store.Get
        KeyForceChangeAdminUsed = some ("used_at_height_" ++ sprintfD genesisCtx.BlockHeight) :=
  ⟨rfl,
    (C13_audit_event_contents testBech32 genesisCtx testKeeper validMsg
      { Events := usedCtx.events } rfl).2.1,
    (C13_audit_event_contents testBech32 genesisCtx testKeeper validMsg
      { Events := usedCtx.events } rfl).2.2⟩

/-- C14: a successful call on a contract changes the store at no key other than the
admin key of that contract and the key of the flag; so the admin record of every
other contract is as before, the admin key being injective in the contract address
and never the key of the flag. -/
theorem C14_success_frame (b : Bech32) (ctx : Context) (keeper : Keeper)
    (msg : MsgForceChangeAdmin) (res : Result)
    (h : (HandleMsgForceChangeAdmin b ctx keeper msg).2 = .ok res) :
    (∀ key, key ≠ adminKey msg.ContractAddr → key ≠ KeyForceChangeAdminUsed →
        (HandleMsgForceChangeAdmin b ctx keeper msg).1.store.Get key = ctx.store.Get key) ∧
      (∀ r, r ≠ msg.ContractAddr →
        (HandleMsgForceChangeAdmin b ctx keeper msg).1.store.Get (adminKey r) =
          ctx.store.Get (adminKey r)) ∧
      (∀ a c, adminKey a = adminKey c → a = c) := by
  rw [(handle_ok_sets_flag b ctx keeper msg res h).1]
  refine ⟨fun key h1 h2 => successCtx_frame b ctx msg key h1 h2, ?_, adminKey_injective⟩
  intro r hr
  exact successCtx_frame b ctx msg (adminKey r)
    (fun he => hr (adminKey_injective r msg.ContractAddr he)) (adminKey_ne_flag r)

/-- C14 on a second override attempt run on a store that already holds an admin for
another contract: the valid message run after `Keeper.ForceChangeAdmin` wrote the
admin of "terra1othercontract" leaves that record in place. -/
theorem C14_witness :
    succeeded (HandleMsgForceChangeAdmin testBech32
      (testKeeper.ForceChangeAdmin testBech32 genesisCtx (some "terra1othercontract")
        (some "terra1old")).1
      testKeeper validMsg).2 = true ∧
    "terra1othercontract" ≠ validMsg.ContractAddr ∧
    (HandleMsgForceChangeAdmin testBech32
      (testKeeper.ForceChangeAdmin testBech32 genesisCtx (some "terra1othercontract")
        (some "terra1old")).1
      testKeeper validMsg).1.store.Get (adminKey "terra1othercontract") =
      (testKeeper.ForceChangeAdmin testBech32 genesisCtx (some "terra1othercontract")
        (some "terra1old")).1.store.Get (adminKey "terra1othercontract") ∧
    (testKeeper.ForceChangeAdmin testBech32 genesisCtx (some "terra1othercontract")
        (some "terra1old")).1.store.Get (adminKey "terra1othercontract") = some "terra1old" :=
  ⟨rfl, by decide,
    (C14_success_frame testBech32
      (testKeeper.ForceChangeAdmin testBech32 genesisCtx (some "terra1othercontract")
        (some "terra1old")).1
      testKeeper validMsg _ rfl).2.1 "terra1othercontract" (by decide),
    by decide⟩

/-- C15: `ValidateBasic` returns nil exactly when the authority, the contract address
and the new admin all parse; otherwise it returns `ErrInvalidAddress` wrapped with
the text for the first field that does not parse, in the order authority, contract
address, new admin. -/
theorem C15_validate_basic (b : Bech32) (msg : MsgForceChangeAdmin) :
    (msg.ValidateBasic b = none ↔
        (b.AccAddressFromBech32 msg.Authority).isSome = true ∧
        (b.AccAddressFromBech32 msg.ContractAddr).isSome = true ∧
        (b.AccAddressFromBech32 msg.NewAdmin).isSome = true) ∧
      (b.AccAddressFromBech32 msg.Authority = none →
        msg.ValidateBasic b = some (Wrap .ErrInvalidAddress "invalid authority address")) ∧
      ((b.AccAddressFromBech32 msg.Authority).isSome = true →
        b.AccAddressFromBech32 msg.ContractAddr = none →
        msg.ValidateBasic b = some (Wrap .ErrInvalidAddress "invalid contract address")) ∧
      ((b.AccAddressFromBech32 msg.Authority).isSome = true →
        (b.AccAddressFromBech32 msg.ContractAddr).isSome = true →
        b.AccAddressFromBech32 msg.NewAdmin = none →
        msg.ValidateBasic b = some (Wrap .ErrInvalidAddress "invalid new admin address")) := by
  cases ha : b.AccAddressFromBech32 msg.Authority <;>
    cases hc : b.AccAddressFromBech32 msg.ContractAddr <;>
    cases hn : b.AccAddressFromBech32 msg.NewAdmin <;>
    simp [MsgForceChangeAdmin.ValidateBasic, ha, hc, hn]

/-- C15 on the test's messages: the valid one passes, and a malformed authority,
contract address and new admin each give their own text. -/
theorem C15_witness :
    validMsg.ValidateBasic testBech32 = none ∧
    (testBech32.AccAddressFromBech32 malformedAuthorityMsg.Authority = none ∧
      malformedAuthorityMsg.ValidateBasic testBech32 =
        some (Wrap .ErrInvalidAddress "invalid authority address")) ∧
    (testBech32.AccAddressFromBech32 invalidContractMsg.ContractAddr = none ∧
      invalidContractMsg.ValidateBasic testBech32 =
        some (Wrap .ErrInvalidAddress "invalid contract address")) ∧
    (testBech32.AccAddressFromBech32 invalidNewAdminMsg.NewAdmin = none ∧
      invalidNewAdminMsg.ValidateBasic testBech32 =
        some (Wrap .ErrInvalidAddress "invalid new admin address")) :=
  ⟨(C15_validate_basic testBech32 validMsg).1.mpr ⟨by decide, by decide, by decide⟩,
    ⟨by decide, (C15_validate_basic testBech32 malformedAuthorityMsg).2.1 (by decide)⟩,
    ⟨by decide,
      (C15_validate_basic testBech32 invalidContractMsg).2.2.1 (by decide) (by decide)⟩,
    ⟨by decide,
      (C15_validate_basic testBech32 invalidNewAdminMsg).2.2.2 (by decide) (by decide)
        (by decide)⟩⟩

/-- C16: when `ValidateBasic` returns nil, `GetSigners` does not panic and returns a
list of exactly one signer, the parsed authority; and `GetSigners` panics exactly
when the authority does not parse. -/
theorem C16_get_signers (b : Bech32) (msg : MsgForceChangeAdmin) :
    (msg.ValidateBasic b = none →
        ∃ addr, b.AccAddressFromBech32 msg.Authority = some addr ∧
          msg.GetSigners b = some [addr] ∧
          (msg.GetSigners b).map List.length = some 1) ∧
      (msg.GetSigners b = none ↔ b.AccAddressFromBech32 msg.Authority = none) := by
  cases ha : b.AccAddressFromBech32 msg.Authority <;>
    simp [MsgForceChangeAdmin.ValidateBasic, MsgForceChangeAdmin.GetSigners, ha]

/-- C16 on the test's valid message, and on a message with a malformed authority. -/
theorem C16_witness :
    validMsg.ValidateBasic testBech32 = none ∧
    (∃ addr, testBech32.AccAddressFromBech32 validMsg.Authority = some addr ∧
      validMsg.GetSigners testBech32 = some [addr] ∧
      (validMsg.GetSigners testBech32).map List.length = some 1) ∧
    malformedAuthorityMsg.GetSigners testBech32 = none :=
  ⟨by decide, (C16_get_signers testBech32 validMsg).1 (by decide),
    (C16_get_signers testBech32 malformedAuthorityMsg).2.mpr (by decide)⟩

/-- C18: the replay denial and the authority denial of the handler both wrap
`ErrUnauthorized` and differ in their text only; the new-admin denial wraps
`ErrInvalidAddress` and the resource denial `ErrUnknownRequest`, two kinds distinct
from `ErrUnauthorized` and from each other.  The four denials are pairwise distinct
as pairs of kind and text, and their kinds alone are not. -/
theorem C18_denial_kinds (b : Bech32) (ctx : Context) (keeper : Keeper)
    (msg : MsgForceChangeAdmin) :
    (ctx.store.Has KeyForceChangeAdminUsed = true →
        ∃ e, (HandleMsgForceChangeAdmin b ctx keeper msg).2 = .error e ∧
          e.parent = .ErrUnauthorized ∧ e.msg = "ForceChangeAdmin can only be used once") ∧
      (ctx.store.Has KeyForceChangeAdminUsed = false →
        keeper.IsGovernanceAuthority ctx msg.Authority = false →
        ∃ e, (HandleMsgForceChangeAdmin b ctx keeper msg).2 = .error e ∧
          e.parent = .ErrUnauthorized ∧ e.msg = "Only governance can perform this action") ∧
      (ctx.store.Has KeyForceChangeAdminUsed = false →
        keeper.IsGovernanceAuthority ctx msg.Authority = true → msg.NewAdmin = "" →
        ∃ e, (HandleMsgForceChangeAdmin b ctx keeper msg).2 = .error e ∧
          e.parent = .ErrInvalidAddress ∧ e.msg = "new admin address cannot be empty") ∧
      (ctx.store.Has KeyForceChangeAdminUsed = false →
        keeper.IsGovernanceAuthority ctx msg.Authority = true → msg.NewAdmin ≠ "" →
        keeper.ContractExists ctx msg.ContractAddr = false →
        ∃ e, (HandleMsgForceChangeAdmin b ctx keeper msg).2 = .error e ∧
          e.parent = .ErrUnknownRequest ∧ e.msg = "contract does not exist") ∧
      (AlreadyUsed.parent = Unauthorized.parent ∧ AlreadyUsed.msg ≠ Unauthorized.msg) ∧
      (InvalidNewAdmin.parent ≠ AlreadyUsed.parent ∧
        UnknownResource.parent ≠ AlreadyUsed.parent ∧
        InvalidNewAdmin.parent ≠ UnknownResource.parent) ∧
      [AlreadyUsed, Unauthorized, InvalidNewAdmin, UnknownResource].Nodup ∧
      ¬ ([AlreadyUsed, Unauthorized, InvalidNewAdmin, UnknownResource].map
        (fun e => e.parent)).Nodup := by
  refine ⟨?_, ?_, ?_, ?_, ⟨rfl, by decide⟩, ⟨by decide, by decide, by decide⟩, by decide,
    by decide⟩
  · intro h1
    exact ⟨_, congrArg Prod.snd (handle_used b ctx keeper msg h1), rfl, rfl⟩
  · intro h1 h2
    exact ⟨_, congrArg Prod.snd (handle_unauthorized b ctx keeper msg h1 h2), rfl, rfl⟩
  · intro h1 h2 h3
    exact ⟨_, congrArg Prod.snd (handle_empty b ctx keeper msg h1 h2 h3), rfl, rfl⟩
  · intro h1 h2 h3 h4
    exact ⟨_, congrArg Prod.snd (handle_unknown b ctx keeper msg h1 h2 h3 h4), rfl, rfl⟩

/-- C18 on four requests, one for each denial. -/
theorem C18_witness :
    (usedCtx.store.Has KeyForceChangeAdminUsed = true ∧
      ∃ e, (HandleMsgForceChangeAdmin testBech32 usedCtx testKeeper validMsg).2 = .error e ∧
        e.parent = .ErrUnauthorized ∧ e.msg = "ForceChangeAdmin can only be used once") ∧
    (testKeeper.IsGovernanceAuthority genesisCtx unauthorizedMsg.Authority = false ∧
      ∃ e, (HandleMsgForceChangeAdmin testBech32 genesisCtx testKeeper unauthorizedMsg).2 =
          .error e ∧
        e.parent = .ErrUnauthorized ∧ e.msg = "Only governance can perform this action") ∧
    (emptyUnknownMsg.NewAdmin = "" ∧
      ∃ e, (HandleMsgForceChangeAdmin testBech32 genesisCtx testKeeper emptyUnknownMsg).2 =
          .error e ∧
        e.parent = .ErrInvalidAddress ∧ e.msg = "new admin address cannot be empty") ∧
    (testKeeper.ContractExists genesisCtx unknownContractMsg.ContractAddr = false ∧
      ∃ e, (HandleMsgForceChangeAdmin testBech32 genesisCtx testKeeper unknownContractMsg).2 =
          .error e ∧
        e.parent = .ErrUnknownRequest ∧ e.msg = "contract does not exist") :=
  ⟨⟨by decide, (C18_denial_kinds testBech32 usedCtx testKeeper validMsg).1 (by decide)⟩,
    ⟨by decide, (C18_denial_kinds testBech32 genesisCtx testKeeper unauthorizedMsg).2.1
      (by decide) (by decide)⟩,
    ⟨by decide, (C18_denial_kinds testBech32 genesisCtx testKeeper emptyUnknownMsg).2.2.1
      (by decide) (by decide) (by decide)⟩,
    ⟨by decide, (C18_denial_kinds testBech32 genesisCtx testKeeper unknownContractMsg).2.2.2.1
      (by decide) (by decide) (by decide) (by decide)⟩⟩

end ForceChangeAdmin
